import Mathlib

/-!
Verification development for the NotebookLM browser-automation scripts
(`scripts/source_manager.py`, `scripts/audio_generator.py`,
`scripts/add_source.py`, `scripts/browser_utils.py`, `scripts/config.py`).

The Python scripts drive a browser through Playwright.  We shallowly embed
the decision logic of each function: a `Page` abstracts the browser page as
pure query functions (what a bounded `wait_for_selector` call returns, what
`query_selector` returns, whether a handle `is_visible`), time is threaded
explicitly in seconds where a claim is about timing, and every function that
can fail returns an `Option` (Python `None`) or a `Bool`, exactly as the
source does.  Side effects that matter to the claims (which UI steps ran,
which cleanup calls ran) are recorded as explicit event traces.
-/

set_option maxRecDepth 8192

namespace NotebookLM

/-- Python's substring containment test `pattern in s`, at character level. -/
def strIn (pattern s : String) : Bool := decide (pattern.toList <:+: s.toList)

/-- Anchored regex match `re.compile(r"^pre").match(s)`, i.e. `s` starts
with `pre`, at character level. -/
def strStarts (pre s : String) : Bool := decide (pre.toList <+: s.toList)

/-- Python's `not s or not s.strip()`: `s` is empty or consists solely of
whitespace (both disjuncts collapse to "every character is whitespace"). -/
def pyBlank (s : String) : Bool := s.toList.all Char.isWhitespace

/-- A live element handle returned by the browser; its identity is all the
scripts ever use (they click/fill through it), so we model it as an opaque
numeric handle. -/
abbrev Element := Nat

/-- Model of a Playwright `Page` as seen by the scripts.

* `url` — the page URL after navigation (`page.url`).
* `wait s t` — result of `page.wait_for_selector(s, timeout=t, state="visible")`:
  `some el` when a visible element appeared within the bounded wait,
  `none` when the call raised (timeout).  The wait is deterministic for a
  fixed page state, which is how the scripts use it.
* `waitTime s t` — the wall-clock time consumed by that same call
  (at most `t` when the underlying wait honours its bound; theorems that
  need this take it as a hypothesis).
* `query s` — result of `page.query_selector(s)` (no waiting).
* `visible el` — result of `el.is_visible()`. -/
structure Page where
  url : String
  wait : String → Nat → Option Element
  waitTime : String → Nat → Nat
  query : String → Option Element
  visible : Element → Bool

/-- Embedding of `find_element_with_selectors(page, selectors, timeout)`
(`source_manager.py` lines 28–37 and, identically, `audio_generator.py`
lines 36–45):

    for selector in selectors:
        try:
            element = page.wait_for_selector(selector, timeout=timeout, state="visible")
            if element:
                return element, selector
        except:
            continue
    return None, None

A raising `wait_for_selector` is `wait s timeout = none` (the bare `except`
absorbs it and the loop falls through to the next candidate). -/
def find_element_with_selectors (page : Page) (selectors : List String)
    (timeout : Nat) : Option Element × Option String :=
  match selectors with
  | [] => (none, none)
  | s :: rest =>
    match page.wait s timeout with
    | some element => (some element, some s)
    | none => find_element_with_selectors page rest timeout

/-- Wall-clock time consumed by `find_element_with_selectors` on the same
page: each attempted candidate consumes the time its `wait_for_selector`
call took, and the loop stops at the first candidate that resolves. -/
def find_elapsed (page : Page) (selectors : List String) (timeout : Nat) : Nat :=
  match selectors with
  | [] => 0
  | s :: rest =>
    match page.wait s timeout with
    | some _ => page.waitTime s timeout
    | none => page.waitTime s timeout + find_elapsed page rest timeout

/-! ## Audio-generation polling loop (`audio_generator.py` lines 233–295)

`generate_audio` polls a set of "Generating Audio Overview" indicator
selectors.  We collapse the inner `for selector in generating_indicator_selectors`
sweep (query each selector, `is_visible`) into one boolean observation of the
page at the current elapsed time: `ind t = true` iff some indicator selector
resolves to a visible element when queried `t` seconds after
`generation_start`.  Sleeps advance the clock: `time.sleep(5)` adds 5 s and
the grace re-check delay `StealthUtils.random_delay(2000, 3000)` adds a
drawn `grace` seconds (2–3 s; we keep `grace` as a parameter).  Prints do
not affect control flow and are dropped. -/

/-- `AUDIO_GENERATION_TIMEOUT` from `config.py` line 45 (milliseconds). -/
def AUDIO_GENERATION_TIMEOUT : Nat := 600000

/-- Outcome of the polling loop.  `completed tCheck tRecheck` records the
elapsed times of the two indicator observations of the iteration that broke
out of the loop (initial check and grace re-check); `timedOut` is the
`while`/`else` branch (`return None`). -/
inductive PollOutcome where
  | completed (tCheck tRecheck : Nat)
  | timedOut
deriving DecidableEq, Repr

/-- Embedding of the polling loop of `generate_audio`
(`audio_generator.py` lines 248–295):

    while time.time() - generation_start < generation_timeout:
        generating = <some indicator selector visible>
        if generating:
            time.sleep(5)
            continue
        else:
            StealthUtils.random_delay(2000, 3000)        # grace delay
            still_generating = <some indicator selector visible>
            if not still_generating:
                break                                    # completed
            else:
                time.sleep(5)
                continue
    else:
        return None                                      # timed out

`t` is the elapsed time at the top of the loop, `timeout` is
`generation_timeout` (seconds).  Status prints are omitted. -/
def genPoll (ind : Nat → Bool) (grace timeout : Nat) (t : Nat) : PollOutcome :=
  if _h : t < timeout then
    if ind t then
      genPoll ind grace timeout (t + 5)
    else
      if ind (t + grace) then
        genPoll ind grace timeout (t + grace + 5)
      else
        .completed t (t + grace)
  else
    .timedOut
termination_by timeout - t
decreasing_by
  · omega
  · omega

/-- The polling phase of `generate_audio` as its caller sees it:
`generation_timeout = AUDIO_GENERATION_TIMEOUT / 1000` seconds
(`audio_generator.py` line 234), a `break` proceeds with the completion
times, the `else` clause returns `None`.  `t0` is the elapsed time when the
loop is first entered (after the initial `random_delay(3000, 5000)`). -/
def generation_wait (ind : Nat → Bool) (grace t0 : Nat) : Option (Nat × Nat) :=
  match genPoll ind grace (AUDIO_GENERATION_TIMEOUT / 1000) t0 with
  | .completed a b => some (a, b)
  | .timedOut => none

/-! ## Cookie injection (`browser_utils.py` lines 18–56) -/

/-- A browser cookie as stored in `state.json`; only the expiry matters to
the claims (`expires = -1` marks a session-scoped cookie, per the comment at
`browser_utils.py` line 40). -/
structure Cookie where
  name : String
  expires : Int
deriving DecidableEq, Repr

/-- What `BrowserFactory._inject_cookies` finds on disk.

* `stateFileExists` — `STATE_FILE.exists()`.
* `parsed` — result of `json.load` + key lookup: `none` when loading raised
  (caught, warning printed), `some none` when the file parsed but has no
  `cookies` key, `some (some cs)` when `state["cookies"] = cs`. -/
structure StateFileEnv where
  stateFileExists : Bool
  parsed : Option (Option (List Cookie))

/-- Embedding of `BrowserFactory._inject_cookies(context)`
(`browser_utils.py` lines 45–56); the returned list is exactly the argument
passed to `context.add_cookies` (empty when `add_cookies` is never called):

    if STATE_FILE.exists():
        try:
            with open(STATE_FILE) as f:
                state = json.load(f)
                if "cookies" in state and len(state["cookies"]) > 0:
                    context.add_cookies(state["cookies"])
        except Exception as e:
            print(...)
-/
def inject_cookies (env : StateFileEnv) : List Cookie :=
  if env.stateFileExists then
    match env.parsed with
    | some (some cs) => if cs.length > 0 then cs else []
    | _ => []
  else []

/-- Session-scoped cookie predicate from the spec and the source comment:
a cookie whose expiry marks it as session-scoped (`expires = -1`). -/
def isSessionScoped (c : Cookie) : Bool := c.expires = -1

/-- The spec's wording of the injection step ("explicitly re-injects any
cookies whose expiry marks them as session-scoped"): the same gate as the
code, but injecting only the session-scoped subset of the snapshot.  Stated
for comparison with `inject_cookies`, which is the code. -/
def inject_cookies_spec (env : StateFileEnv) : List Cookie :=
  if env.stateFileExists then
    match env.parsed with
    | some (some cs) =>
      if cs.length > 0 then cs.filter isSessionScoped else []
    | _ => []
  else []

/-! ## Download capture (`browser_utils.py` lines 110–197) -/

/-- Primitive steps performed by the download handlers, in order:
entering the `with page.expect_download(timeout=...)` scope (which installs
the download listener), invoking `trigger_action()`, and `download.save_as(path)`. -/
inductive DlEv where
  | listen (timeout : Nat)
  | trigger
  | saveAs (path : String)
deriving DecidableEq, Repr

/-- Environment a download handler runs in.

* `event` — `some s` when the triggered download event fires within the
  `expect_download` timeout, with browser-suggested filename `s`
  (`download.suggested_filename`); `none` when no event arrives and
  `download_info.value` raises.
* `saveOk` — whether `download.save_as` succeeds (a write error raises and
  is caught by the same `except`). -/
structure DownloadEnv where
  event : Option String
  saveOk : Bool

/-- Embedding of `DownloadHandler.wait_for_download(page, trigger_action,
download_dir, timeout)` (`browser_utils.py` lines 122–160).  Returns the
ordered trace of primitive steps and the returned path (`None` on any
caught failure).  `Path(download_dir) / name` is modelled as
`download_dir ++ "/" ++ name`. -/
def wait_for_download (env : DownloadEnv) (download_dir : String)
    (timeout : Nat) : List DlEv × Option String :=
  match env.event with
  | none => ([.listen timeout, .trigger], none)
  | some suggested_filename =>
    let save_path := download_dir ++ "/" ++ suggested_filename
    if env.saveOk then
      ([.listen timeout, .trigger, .saveAs save_path], some save_path)
    else
      ([.listen timeout, .trigger, .saveAs save_path], none)

/-- Embedding of `DownloadHandler.download_with_custom_name(page,
trigger_action, download_dir, filename, timeout)` (`browser_utils.py`
lines 162–197): identical to `wait_for_download` except the save path uses
the caller-supplied `filename` and the suggested filename is never read. -/
def download_with_custom_name (env : DownloadEnv) (download_dir filename : String)
    (timeout : Nat) : List DlEv × Option String :=
  match env.event with
  | none => ([.listen timeout, .trigger], none)
  | some _ =>
    let save_path := download_dir ++ "/" ++ filename
    if env.saveOk then
      ([.listen timeout, .trigger, .saveAs save_path], some save_path)
    else
      ([.listen timeout, .trigger, .saveAs save_path], none)

/-! ## Human typing (`browser_utils.py` lines 67–89) -/

/-- Actions performed by `StealthUtils.human_type`: the warning print on the
not-found path, the focusing click, and each `element.type(char, ...)` call.
The randomized per-character delays and the occasional extra pause are pure
timing and produce no action of their own. -/
inductive TypeEv where
  | warn
  | clickFocus
  | typeChar (c : Char)
deriving DecidableEq, Repr

/-- Embedding of `StealthUtils.human_type(page, selector, text, ...)`
(`browser_utils.py` lines 67–89):

    element = page.query_selector(selector)
    if not element:
        try:
            element = page.wait_for_selector(selector, timeout=2000)
        except:
            pass
    if not element:
        print(f"Element not found for typing: ...")
        return
    element.click()
    for char in text:
        element.type(char, delay=random.uniform(25, 75))
        if random.random() < 0.05:
            time.sleep(...)

The function always returns normally (Python `None`); its observable
behaviour is the action trace, so the embedding returns just the trace. -/
def human_type (page : Page) (selector : String) (text : String) : List TypeEv :=
  let element :=
    match page.query selector with
    | some el => some el
    | none => page.wait selector 2000
  match element with
  | none => [.warn]
  | some _ => .clickFocus :: text.toList.map (fun char => TypeEv.typeChar char)

/-! ## Adding a text source (`add_source.py` lines 34–208)

`add_source.py` imports its selector lists (`ADD_SOURCE_BUTTON_SELECTORS`,
`PASTE_TEXT_CHIP_SELECTORS`, `PASTE_TEXT_TEXTAREA_SELECTORS`,
`INSERT_BUTTON_SELECTORS`) from `config.py`, but the provided `config.py`
does not define those names; the spec treats concrete selector lists as
out-of-scope versioned configuration data, so we pass them as an explicit
configuration record.  None of the claims depend on their contents. -/

/-- The selector configuration consumed by `add_text_source`
(the four lists `add_source.py` imports from `config.py`). -/
structure SourceSelectors where
  addSource : List String
  pasteChip : List String
  textarea : List String
  insertBtn : List String

/-- UI steps performed by `add_source.add_text_source`, in program order.
`tryX` marks a selector-resolution attempt for step `X`; `clickX` that the
resolved element was clicked; `fillContent` is the bulk `textarea.fill(content)`
path and `humanTypeCall` the invocation of `StealthUtils.human_type`
(the per-character typing path). -/
inductive TextEv where
  | goto
  | urlMismatch
  | clickSourcesTab
  | tryAddBtn
  | clickAddBtn
  | tryChip
  | clickChip
  | tryTextarea
  | fillContent
  | humanTypeCall
  | tryInsert
  | clickInsert
  | errorShown
  | screenshot
deriving DecidableEq, Repr

/-- The success message `add_text_source` returns
(`add_source.py` line 190). -/
def addTextSuccessMsg (content : String) : String :=
  "Successfully added text source (" ++ toString content.length ++ " characters)"

/-- The optional Sources-tab click of `add_text_source`
(`add_source.py` lines 82–88): query the tab, click it only when present
and visible; any failure is absorbed by the surrounding
`try`/`except: pass`. -/
def sourcesTabTrace (page : Page) : List TextEv :=
  match page.query "button:has-text(\"Sources\"), [role=\"tab\"]:has-text(\"Sources\")" with
  | some el => if page.visible el then [TextEv.clickSourcesTab] else []
  | none => []

/-- Embedding of `add_source.add_text_source(notebook_url, content, headless)`,
the body inside the `try` (`add_source.py` lines 52–190), returning the trace
of UI steps and the Python return value (`None` = failure).

Line-by-line correspondence:
* the empty-content guard `if not content or not content.strip()`
  (lines 52–54) → the `pyBlank content` branch;
* `page.wait_for_url(r"^https://notebooklm\.google\.com/", 10000)` (line 73)
  raising on a non-matching URL (caught by the outer `except`, returning
  `None`) → the `startsWith` branch;
* `if "/notebook/" not in page.url: return None` (lines 77–79) → the
  `urlMismatch` branch;
* the optional Sources-tab click (lines 82–88);
* each `for selector in LIST: try: wait_for_selector(..., state="visible")`
  loop (lines 93–100, 116–123, 135–142, 164–171) is the same iteration
  pattern as `find_element_with_selectors` and is embedded through it;
* `if len(content) > 500: textarea.fill(content) else: StealthUtils.human_type(...)`
  (lines 152–155);
* the final `[class*="error"]` visibility check (lines 181–187).

The pre-browser authentication precondition (lines 46–50) is an external
collaborator per the spec and is outside this embedding, which models a run
that reached the browser. -/
def add_text_source (cfg : SourceSelectors) (page : Page) (content : String) :
    List TextEv × Option String :=
  if pyBlank content then ([], none)
  else if ¬ strStarts "https://notebooklm.google.com/" page.url then
    ([.goto], none)
  else if ¬ strIn "/notebook/" page.url then
    ([.goto, .urlMismatch], none)
  else
    let t1 := TextEv.goto :: sourcesTabTrace page
    match find_element_with_selectors page cfg.addSource 5000 with
    | (none, _) => (t1 ++ [.tryAddBtn, .screenshot], none)
    | (some _, _) =>
      let t2 := t1 ++ [TextEv.tryAddBtn, TextEv.clickAddBtn]
      match find_element_with_selectors page cfg.pasteChip 3000 with
      | (none, _) => (t2 ++ [.tryChip], none)
      | (some _, _) =>
        let t3 := t2 ++ [TextEv.tryChip, TextEv.clickChip]
        match find_element_with_selectors page cfg.textarea 3000 with
        | (none, _) => (t3 ++ [.tryTextarea], none)
        | (some _, _) =>
          let entry :=
            if content.length > 500 then [TextEv.fillContent]
            else [TextEv.humanTypeCall]
          let t4 := t3 ++ [TextEv.tryTextarea] ++ entry
          match find_element_with_selectors page cfg.insertBtn 3000 with
          | (none, _) => (t4 ++ [.tryInsert], none)
          | (some _, _) =>
            let t5 := t4 ++ [TextEv.tryInsert, TextEv.clickInsert]
            match page.query "[class*=\"error\"]" with
            | some el =>
              if page.visible el then (t5 ++ [.errorShown], none)
              else (t5, some (addTextSuccessMsg content))
            | none => (t5, some (addTextSuccessMsg content))

/-! ## Adding a URL source (`source_manager.py` lines 40–187) -/

/-- `ADD_SOURCE_SELECTORS` from `config.py` lines 59–65. -/
def ADD_SOURCE_SELECTORS : List String :=
  [ "button:has-text(\"Add sources\")"
  , "button:has-text(\"+ Add sources\")"
  , "[aria-label=\"Add sources\"]"
  , "div:has-text(\"Add sources\")"
  , ".add-sources-button" ]

/-- UI steps performed by `source_manager.add_url_source`, in program order. -/
inductive UrlEv where
  | goto
  | dialogAlreadyOpen
  | tryAddBtn
  | clickAddBtn
  | clickWebsites
  | fillTextarea (u : String)
  | clickInsert
  | pressEnter
  | fillInput (u : String)
  | screenshot
deriving DecidableEq, Repr

/-- Embedding of `source_manager.add_url_source(notebook_url, source_url,
headless)`, the body inside the `try` (`source_manager.py` lines 64–169),
returning the trace of UI steps and the Python return value (`True` =
success, `False` = failure).

Line-by-line correspondence:
* `page.wait_for_url(r"^https://notebooklm\.google\.com/", 60000)` (line 77)
  raising on a non-matching URL (caught by the outer `except`, returning
  `False`) → the `startsWith` branch;
* the "add source dialog already open" probe (lines 81–85);
* `find_element_with_selectors(page, ADD_SOURCE_SELECTORS, timeout=10000)`
  with the alternative `query_selector` fallback (lines 89–106);
* the Websites-button click (lines 112–116), the paste-links textarea with
  its two-selector fallback (lines 119–150), the Insert button or Enter-key
  submission (lines 135–143), and the final `input` fallback (lines 153–164).

Note: this function performs no `"/notebook/" in page.url` check anywhere.
The pre-browser authentication precondition (lines 52–56) is external, as in
`add_text_source`. -/
def add_url_source (page : Page) (source_url : String) : List UrlEv × Bool :=
  if ¬ strStarts "https://notebooklm.google.com/" page.url then
    ([.goto], false)
  else
    let web_search_visible := page.query "input[placeholder*=\"Search the web\"]"
    let websites_button := page.query "button:has-text(\"Websites\")"
    let openTrace :=
      if web_search_visible.isSome ∨ websites_button.isSome then
        some [UrlEv.goto, UrlEv.dialogAlreadyOpen]
      else
        match find_element_with_selectors page ADD_SOURCE_SELECTORS 10000 with
        | (some _, _) => some [UrlEv.goto, UrlEv.tryAddBtn, UrlEv.clickAddBtn]
        | (none, _) =>
          match page.query "button[class*=\"add\"], button[class*=\"source\"], [data-action=\"add-source\"]" with
          | some _ => some [UrlEv.goto, UrlEv.tryAddBtn, UrlEv.clickAddBtn]
          | none => none
    match openTrace with
    | none => ([.goto, .tryAddBtn, .screenshot], false)
    | some t1 =>
      let t2 :=
        match page.query "button:has-text(\"Websites\")" with
        | some _ => t1 ++ [UrlEv.clickWebsites]
        | none => t1
      let url_textarea :=
        match page.query "textarea" with
        | some el => some el
        | none =>
          page.query "[contenteditable=\"true\"], textarea[placeholder*=\"link\"], textarea[placeholder*=\"Paste\"]"
      match url_textarea with
      | some _ =>
        let t3 := t2 ++ [UrlEv.fillTextarea source_url]
        match page.query "button:has-text(\"Insert\")" with
        | some _ => (t3 ++ [.clickInsert], true)
        | none => (t3 ++ [.pressEnter], true)
      | none =>
        match page.query "input[placeholder*=\"Search the web\"], input[placeholder*=\"URL\"], input[type=\"url\"]" with
        | some _ => (t2 ++ [.fillInput source_url, .pressEnter], true)
        | none => (t2 ++ [.screenshot], false)

/-! ## Resource acquisition and unconditional release

`add_source.add_text_source` (`add_source.py` lines 62–208),
`source_manager.add_url_source` (`source_manager.py` lines 61–187) and
`audio_generator.generate_audio` (`audio_generator.py` lines 83–461) all
share the same skeleton around their operation body:

    playwright = None
    context = None
    try:
        playwright = sync_playwright().start()
        context = BrowserFactory.launch_persistent_context(playwright, ...)
        <operation body: may return a result, return None, or raise>
    except Exception as e:
        print(...); traceback.print_exc()
        return None
    finally:
        if context:
            try: context.close()
            except: pass
        if playwright:
            try: playwright.stop()
            except: pass

We embed this skeleton with the operation body abstracted to its outcome
(the bodies themselves are embedded separately above); what the claim is
about is the `finally` block. -/

/-- Resource events of the skeleton: driver start
(`sync_playwright().start()`), context launch, the body running, the
`except` handler firing, `context.close()`, `playwright.stop()`. -/
inductive ResEv where
  | pwStart
  | ctxLaunch
  | opBody
  | caughtErr
  | ctxClose
  | pwStop
deriving DecidableEq, Repr

/-- Outcome of the abstract operation body: a successful return value,
a handled failure (`return None` inside the `try`), or an unexpected
exception (caught by the `except` clause). -/
inductive BodyOut where
  | ok (msg : String)
  | failed
  | raised
deriving DecidableEq, Repr

/-- Which steps of the run succeed: whether `sync_playwright().start()`
returns (else it raises), whether `launch_persistent_context` returns
(else it raises), and what the body does. -/
structure OpEnv where
  startOk : Bool
  launchOk : Bool
  body : BodyOut
deriving DecidableEq, Repr

/-- Embedding of the shared `try`/`except`/`finally` skeleton.  Returns the
ordered trace of resource events and the function's return value.  The
`finally` block closes the context only when `context` is non-`None`
(i.e. the launch happened) and stops the driver only when `playwright` is
non-`None` (i.e. the start happened), exactly as the guards in the source;
its own `try`/`except: pass` wrappers mean a failing `close`/`stop` call
does not alter the result. -/
def run_with_cleanup (env : OpEnv) : List ResEv × Option String :=
  if env.startOk then
    if env.launchOk then
      match env.body with
      | .ok msg => ([.pwStart, .ctxLaunch, .opBody, .ctxClose, .pwStop], some msg)
      | .failed => ([.pwStart, .ctxLaunch, .opBody, .ctxClose, .pwStop], none)
      | .raised => ([.pwStart, .ctxLaunch, .opBody, .caughtErr, .ctxClose, .pwStop], none)
    else
      ([.pwStart, .caughtErr, .pwStop], none)
  else
    ([.caughtErr], none)

/-! ## Concrete pages used by witnesses and counterexamples -/

/-- A page on which only the selector `"b"` resolves (to element `7`), and
every bounded wait consumes its full timeout. -/
def pageW : Page where
  url := "https://notebooklm.google.com/notebook/abc123"
  wait := fun s _ => if s = "b" then some 7 else none
  waitTime := fun _ t => t
  query := fun _ => none
  visible := fun _ => true

/-- A page on which no selector ever resolves. -/
def pageFail : Page where
  url := "https://notebooklm.google.com/"
  wait := fun _ _ => none
  waitTime := fun _ t => t
  query := fun _ => none
  visible := fun _ => true

/-! ## C1 — ordered, per-candidate-bounded, look-ahead-free resolution -/

/-- C1: for every selector list of the shape `pre ++ k :: post` where no
candidate in `pre` resolves within its bounded wait and candidate `k`
resolves to visible element `el`, `find_element_with_selectors` returns
exactly `k`'s element and selector — for every `post`, so the result does
not depend on what any later candidate would have matched (no look-ahead) —
and, provided each candidate's wait honours its own bound, the total
resolution time is at most the sum of the timeouts of candidates `1..k`,
i.e. `(pre.length + 1) * timeout`. -/
theorem find_element_first_match (page : Page) (pre post : List String)
    (s : String) (el : Element) (timeout : Nat)
    (hpre : ∀ x ∈ pre, page.wait x timeout = none)
    (hs : page.wait s timeout = some el)
    (hbound : ∀ x, page.waitTime x timeout ≤ timeout) :
    find_element_with_selectors page (pre ++ s :: post) timeout = (some el, some s) ∧
    find_elapsed page (pre ++ s :: post) timeout ≤ (pre.length + 1) * timeout := by
  induction pre with
  | nil =>
    constructor
    · simp [find_element_with_selectors, hs]
    · simpa [find_elapsed, hs] using hbound s
  | cons a rest ih =>
    have ha : page.wait a timeout = none := hpre a (by simp)
    have hrest : ∀ x ∈ rest, page.wait x timeout = none :=
      fun x hx => hpre x (by simp [hx])
    obtain ⟨h1, h2⟩ := ih hrest
    constructor
    · simpa [find_element_with_selectors, ha] using h1
    · have hmul : ((a :: rest).length + 1) * timeout
          = timeout + (rest.length + 1) * timeout := by
        simp [List.length_cons]; ring
      simp only [List.cons_append, find_elapsed, ha]
      rw [hmul]
      exact Nat.add_le_add (hbound a) h2

/-- Witness for C1 at a concrete input: on `pageW`, with candidates
`["a", "b", "c"]`, candidate `"a"` fails, `"b"` is the first match, and the
theorem yields the result `(element 7, selector "b")` with elapsed time at
most two timeouts. -/
theorem find_element_first_match_witness :
    find_element_with_selectors pageW ["a", "b", "c"] 5000 = (some 7, some "b") ∧
    find_elapsed pageW ["a", "b", "c"] 5000 ≤ (1 + 1) * 5000 := by
  have h := find_element_first_match pageW ["a"] ["c"] "b" 7 5000
    (by intro x hx; simp at hx; subst hx; rfl)
    (by rfl)
    (by intro x; exact Nat.le_refl 5000)
  simpa using h

/-! ## C5 — exhausted resolution: not-found outcome, but no candidate report -/

/-- C5 (amended): when no candidate resolves within its own bounded wait —
including the empty candidate list — `find_element_with_selectors` returns
the not-found outcome `(None, None)` rather than propagating an exception
(each candidate's failure is absorbed by the `except: continue`).  The
outcome itself carries no candidate identifiers; the caller retains the
list it passed in. -/
theorem find_element_exhausted_not_found (page : Page) (selectors : List String)
    (timeout : Nat) (h : ∀ x ∈ selectors, page.wait x timeout = none) :
    find_element_with_selectors page selectors timeout = (none, none) := by
  induction selectors with
  | nil => rfl
  | cons a rest ih =>
    have ha : page.wait a timeout = none := h a (by simp)
    have hrest := ih (fun x hx => h x (by simp [hx]))
    simp [find_element_with_selectors, ha, hrest]

/-- Counterexample to C5 as stated: the not-found outcome is the bare pair
`(None, None)` — its selector component is `None` and it is byte-for-byte
the same for the attempted candidate list `["a", "b"]` as for the different
list `["c"]`, so it cannot carry the list of candidate identifiers that
were attempted. -/
theorem find_element_not_found_carries_no_candidates :
    find_element_with_selectors pageFail ["a", "b"] 5000 = (none, none) ∧
    find_element_with_selectors pageFail ["c"] 5000 = (none, none) ∧
    (find_element_with_selectors pageFail ["a", "b"] 5000).2 = none := by
  refine ⟨rfl, rfl, rfl⟩

/-- Witness for the amended C5 at a concrete input: on `pageFail` both a
two-candidate list and the empty list produce `(None, None)`. -/
theorem find_element_exhausted_not_found_witness :
    find_element_with_selectors pageFail ["a", "b"] 5000 = (none, none) ∧
    find_element_with_selectors pageFail ([] : List String) 5000 = (none, none) := by
  constructor
  · exact find_element_exhausted_not_found pageFail ["a", "b"] 5000
      (by intro x hx; rfl)
  · exact find_element_exhausted_not_found pageFail [] 5000 (by intro x hx; cases hx)

/-! ## C2 — stabilized completion in the polling loop -/

/-- Helper: whenever the loop breaks out with `completed t1 t2`, the
indicator was observed absent at elapsed time `t1` (the initial check) and
again at `t2 = t1 + grace` (the re-check after the grace delay). -/
lemma genPoll_completed_sound (ind : Nat → Bool) (grace timeout : Nat) :
    ∀ t t1 t2, genPoll ind grace timeout t = .completed t1 t2 →
      ind t1 = false ∧ ind t2 = false ∧ t2 = t1 + grace := by
  have main : ∀ n t t1 t2, timeout - t ≤ n →
      genPoll ind grace timeout t = .completed t1 t2 →
      ind t1 = false ∧ ind t2 = false ∧ t2 = t1 + grace := by
    intro n
    induction n with
    | zero =>
      intro t t1 t2 hn h
      unfold genPoll at h
      rw [dif_neg (by omega)] at h
      exact PollOutcome.noConfusion h
    | succ n ih =>
      intro t t1 t2 hn h
      unfold genPoll at h
      by_cases hlt : t < timeout
      · rw [dif_pos hlt] at h
        by_cases hind : ind t = true
        · rw [if_pos hind] at h
          exact ih (t + 5) t1 t2 (by omega) h
        · rw [if_neg hind] at h
          by_cases hre : ind (t + grace) = true
          · rw [if_pos hre] at h
            exact ih (t + grace + 5) t1 t2 (by omega) h
          · rw [if_neg hre] at h
            simp only [PollOutcome.completed.injEq] at h
            obtain ⟨rfl, rfl⟩ := h
            exact ⟨Bool.eq_false_iff.mpr hind, Bool.eq_false_iff.mpr hre, rfl⟩
      · rw [dif_neg hlt] at h
        exact PollOutcome.noConfusion h
  exact fun t t1 t2 h => main (timeout - t) t t1 t2 (Nat.le_refl _) h

/-- Helper: a transient disappearance — indicator absent at the initial
check but visible again at the grace re-check — does not complete the
iteration: the loop continues polling from `t + grace + 5` (grace delay
plus the 5-second sleep). -/
lemma genPoll_flicker_repolls (ind : Nat → Bool) (grace timeout t : Nat)
    (hlt : t < timeout) (h0 : ind t = false) (h1 : ind (t + grace) = true) :
    genPoll ind grace timeout t = genPoll ind grace timeout (t + grace + 5) := by
  conv_lhs => rw [genPoll]
  rw [dif_pos hlt, if_neg (by simp [h0]), if_pos h1]

/-- C2: in the audio-generation polling loop, (a) completion is declared
only when the in-progress indicator was observed absent both at the initial
check and at the re-check one grace delay later — so completion is never
declared off an iteration whose initial check saw the indicator visible —
and (b) a single disappearance whose grace re-check sees the indicator
again does not terminate the loop as completed: the loop's value is that of
resuming polling at `t + grace + 5`. -/
theorem genPoll_double_check_completion :
    (∀ (ind : Nat → Bool) (grace timeout t t1 t2 : Nat),
        genPoll ind grace timeout t = .completed t1 t2 →
        ind t1 = false ∧ ind t2 = false ∧ t2 = t1 + grace) ∧
    (∀ (ind : Nat → Bool) (grace timeout t : Nat),
        t < timeout → ind t = false → ind (t + grace) = true →
        genPoll ind grace timeout t = genPoll ind grace timeout (t + grace + 5)) :=
  ⟨fun ind grace timeout t t1 t2 h => genPoll_completed_sound ind grace timeout t t1 t2 h,
   fun ind grace timeout t hlt h0 h1 => genPoll_flicker_repolls ind grace timeout t hlt h0 h1⟩

/-- Indicator for the C2 witness: visible exactly at elapsed time 2 —
absent at the initial check (t = 0), back at the grace re-check (t = 2). -/
def indDip : Nat → Bool := fun t => t == 2

/-- Witness for C2 at concrete inputs: (a) applied to the run where the
indicator is never visible with `grace = 2` and budget 1 s, which the loop
completes as `completed 0 2`; (b) applied to `indDip` with `grace = 2` and
budget 30 s, where the flicker at the re-check sends the loop back to
polling. -/
theorem genPoll_double_check_completion_witness :
    ((fun _ => false : Nat → Bool) 0 = false ∧
      (fun _ => false : Nat → Bool) (0 + 2) = false ∧ 0 + 2 = 0 + 2) ∧
    genPoll indDip 2 30 0 = genPoll indDip 2 30 (0 + 2 + 5) := by
  constructor
  · exact genPoll_double_check_completion.1 (fun _ => false) 2 1 0 0 (0 + 2)
      (by rw [genPoll]; norm_num)
  · exact genPoll_double_check_completion.2 indDip 2 30 0 (by norm_num)
      (by rfl) (by rfl)

/-! ## C3 — bounded polling: a never-clearing indicator yields a timeout -/

/-- Helper: if the indicator is visible at every observation, the loop
never breaks and returns `timedOut` once elapsed time reaches the budget. -/
lemma genPoll_never_clears (ind : Nat → Bool) (grace timeout : Nat)
    (hind : ∀ t, ind t = true) :
    ∀ t, genPoll ind grace timeout t = .timedOut := by
  have main : ∀ n t, timeout - t ≤ n → genPoll ind grace timeout t = .timedOut := by
    intro n
    induction n with
    | zero =>
      intro t hn
      unfold genPoll
      rw [dif_neg (by omega)]
    | succ n ih =>
      intro t hn
      unfold genPoll
      by_cases hlt : t < timeout
      · rw [dif_pos hlt, if_pos (hind t)]
        exact ih (t + 5) (by omega)
      · rw [dif_neg hlt]
  exact fun t => main (timeout - t) t (Nat.le_refl _)

/-- C3: in a run where the in-progress indicator never becomes absent, the
polling phase of `generate_audio` — whose budget is
`AUDIO_GENERATION_TIMEOUT / 1000` seconds — reaches `timedOut` (the
`while`/`else` branch) and the operation returns the timeout failure
`None`; the loop is a total function of the run, so it terminates rather
than hanging. -/
theorem generation_wait_times_out (ind : Nat → Bool) (grace t0 : Nat)
    (hind : ∀ t, ind t = true) :
    genPoll ind grace (AUDIO_GENERATION_TIMEOUT / 1000) t0 = .timedOut ∧
    generation_wait ind grace t0 = none := by
  have h := genPoll_never_clears ind grace (AUDIO_GENERATION_TIMEOUT / 1000) hind t0
  exact ⟨h, by simp [generation_wait, h]⟩

/-- Witness for C3 at a concrete input: the always-visible indicator. -/
theorem generation_wait_times_out_witness :
    genPoll (fun _ => true) 2 (AUDIO_GENERATION_TIMEOUT / 1000) 0 = .timedOut ∧
    generation_wait (fun _ => true) 2 0 = none := by
  exact generation_wait_times_out (fun _ => true) 2 0 (fun _ => rfl)

/-! ## C4 — cookie re-injection after launching the persistent context -/

/-- A state file holding a single persistent cookie: its expiry is a
concrete future timestamp, so it is **not** session-scoped. -/
def persistentCookieEnv : StateFileEnv :=
  ⟨true, some (some [⟨"SID", 1999999999⟩])⟩

/-- Counterexample to C4 as stated: `_inject_cookies` passes the snapshot's
cookie list to `context.add_cookies` unfiltered.  On a state file whose
only cookie has a persistent expiry (`1999999999`, not the session marker
`-1`), the code injects that cookie, whereas injecting "exactly those
cookies whose expiry marks them as session-scoped" (the claim, rendered as
`inject_cookies_spec`) would inject nothing. -/
theorem inject_cookies_ignores_expiry :
    inject_cookies persistentCookieEnv = [⟨"SID", 1999999999⟩] ∧
    inject_cookies_spec persistentCookieEnv = [] ∧
    inject_cookies persistentCookieEnv ≠ inject_cookies_spec persistentCookieEnv := by
  refine ⟨rfl, rfl, by decide⟩

/-- C4 (amended): after launch, when the state file exists, parses, and
holds a non-empty cookie list, the factory re-injects **all** cookies of
the snapshot into the context — the session-scoped ones (the reason the
workaround exists) along with any others; no expiry-based filtering is
performed. -/
theorem inject_cookies_injects_all (env : StateFileEnv) (cs : List Cookie)
    (hex : env.stateFileExists = true)
    (hp : env.parsed = some (some cs))
    (hne : 0 < cs.length) :
    inject_cookies env = cs := by
  unfold inject_cookies
  rw [hex, hp]
  simp [hne]

/-- Witness for the amended C4 at a concrete input: a snapshot with one
session-scoped and one persistent cookie is injected whole. -/
theorem inject_cookies_injects_all_witness :
    inject_cookies ⟨true, some (some [⟨"S", -1⟩, ⟨"SID", 1999999999⟩])⟩
      = [⟨"S", -1⟩, ⟨"SID", 1999999999⟩] := by
  exact inject_cookies_injects_all _ _ rfl rfl (by norm_num)

/-! ## C6 — download capture: listener ordering and file naming -/

/-- C6: for a download whose trigger fires an event (suggested name `s`)
within the timeout and whose save succeeds, `wait_for_download` saves to
`download_dir/s` — exactly the browser-suggested filename — and
`download_with_custom_name` saves to `download_dir/fn` — exactly the
caller's override, with the suggested name discarded (the outcome is
unchanged under any other suggested name); and in both handlers, on every
run, the download-listening scope is entered before the trigger action is
invoked (the trace begins `[listen, trigger]`). -/
theorem download_capture_naming (env : DownloadEnv) (dir s fn : String)
    (timeout : Nat) (hev : env.event = some s) (hsave : env.saveOk = true) :
    wait_for_download env dir timeout =
      ([.listen timeout, .trigger, .saveAs (dir ++ "/" ++ s)],
        some (dir ++ "/" ++ s)) ∧
    download_with_custom_name env dir fn timeout =
      ([.listen timeout, .trigger, .saveAs (dir ++ "/" ++ fn)],
        some (dir ++ "/" ++ fn)) ∧
    (∀ s2, download_with_custom_name ⟨some s2, env.saveOk⟩ dir fn timeout
        = download_with_custom_name env dir fn timeout) ∧
    (∀ e : DownloadEnv,
      (wait_for_download e dir timeout).1.take 2 = [DlEv.listen timeout, DlEv.trigger] ∧
      (download_with_custom_name e dir fn timeout).1.take 2
        = [DlEv.listen timeout, DlEv.trigger]) := by
  refine ⟨?_, ?_, ?_, ?_⟩
  · simp [wait_for_download, hev, hsave]
  · simp [download_with_custom_name, hev, hsave]
  · intro s2
    simp [download_with_custom_name, hev]
  · intro e
    constructor
    · unfold wait_for_download
      rcases e with ⟨ev, sv⟩
      cases ev <;> cases sv <;> rfl
    · unfold download_with_custom_name
      rcases e with ⟨ev, sv⟩
      cases ev <;> cases sv <;> rfl

/-- Witness for C6 at the spec's concrete input: suggested name
`"report.mp3"`, override `"custom.mp3"`, destination `"/dl"`. -/
theorem download_capture_naming_witness :
    wait_for_download ⟨some "report.mp3", true⟩ "/dl" 60000 =
      ([.listen 60000, .trigger, .saveAs "/dl/report.mp3"], some "/dl/report.mp3") ∧
    download_with_custom_name ⟨some "report.mp3", true⟩ "/dl" "custom.mp3" 60000 =
      ([.listen 60000, .trigger, .saveAs "/dl/custom.mp3"], some "/dl/custom.mp3") := by
  have h := download_capture_naming ⟨some "report.mp3", true⟩ "/dl" "report.mp3"
    "custom.mp3" 60000 rfl rfl
  exact ⟨h.1, h.2.1⟩

/-! ## C7 — post-navigation notebook-URL guard -/

/-- A page whose post-navigation URL is the NotebookLM home page — it
matches `^https://notebooklm.google.com/` but contains no `/notebook/`
segment — on which the add-sources dialog elements are all present. -/
def pageHome : Page where
  url := "https://notebooklm.google.com/"
  wait := fun _ _ => none
  waitTime := fun _ t => t
  query := fun s =>
    if s = "button:has-text(\"Websites\")" ∨ s = "textarea" ∨
        s = "button:has-text(\"Insert\")" then some 1 else none
  visible := fun _ => true

/-- Counterexample to C7 as stated: `source_manager.add_url_source` never
checks the resulting URL for `/notebook/`.  On `pageHome` — whose URL lacks
the notebook path segment — it proceeds through the later steps (fills the
URL textarea, clicks Insert) and returns success, instead of returning a
failure with no later step executed. -/
theorem add_url_source_skips_navigation_guard :
    strIn "/notebook/" pageHome.url = false ∧
    (add_url_source pageHome "https://example.com").2 = true ∧
    UrlEv.fillTextarea "https://example.com"
      ∈ (add_url_source pageHome "https://example.com").1 ∧
    UrlEv.clickInsert ∈ (add_url_source pageHome "https://example.com").1 := by
  refine ⟨by decide, ?_, ?_, ?_⟩ <;>
    simp [add_url_source, pageHome, find_element_with_selectors,
      ADD_SOURCE_SELECTORS] <;> decide

/-- C7 (amended): the guard exists in `add_source.add_text_source` — and
only there.  For that operation, whenever the post-navigation URL does not
contain `/notebook/`, the run returns the failure `None` and performs none
of the later steps: its trace holds at most the navigation itself and the
redirect diagnostic, so the Add-sources lookup, the source-type chip, the
payload entry and the submission never execute.  (`add_url_source` in
`source_manager.py` performs no such check, per the counterexample.) -/
theorem add_text_source_navigation_guard (cfg : SourceSelectors) (page : Page)
    (content : String) (h : strIn "/notebook/" page.url = false) :
    (add_text_source cfg page content).2 = none ∧
    ∀ e ∈ (add_text_source cfg page content).1,
      e = TextEv.goto ∨ e = TextEv.urlMismatch := by
  by_cases h0 : pyBlank content
  · constructor
    · simp [add_text_source, h0]
    · intro e he
      simp [add_text_source, h0] at he
  · by_cases h1 : strStarts "https://notebooklm.google.com/" page.url
    · constructor
      · simp [add_text_source, h0, h1, h]
      · intro e he
        simp [add_text_source, h0, h1, h] at he
        simp [he]
    · constructor
      · simp [add_text_source, h0, h1]
      · intro e he
        simp [add_text_source, h0, h1] at he
        simp [he]

/-- Witness for the amended C7 at a concrete input: on `pageHome` (a
successful navigation that landed outside any notebook), `add_text_source`
fails with no later step executed. -/
theorem add_text_source_navigation_guard_witness :
    (add_text_source ⟨[], [], [], []⟩ pageHome "hello").2 = none ∧
    ∀ e ∈ (add_text_source ⟨[], [], [], []⟩ pageHome "hello").1,
      e = TextEv.goto ∨ e = TextEv.urlMismatch := by
  exact add_text_source_navigation_guard ⟨[], [], [], []⟩ pageHome "hello" (by decide)

/-! ## C8 — bulk fill vs. per-character typing at the 500-character threshold -/

/-- Helper: whatever the Sources-tab probe finds, its trace contains
neither content-entry event. -/
lemma sourcesTabTrace_eventless (page : Page) :
    TextEv.fillContent ∉ sourcesTabTrace page ∧
    TextEv.humanTypeCall ∉ sourcesTabTrace page := by
  rcases hq : page.query
      "button:has-text(\"Sources\"), [role=\"tab\"]:has-text(\"Sources\")" with _ | el
  · simp [sourcesTabTrace, hq]
  · by_cases h : page.visible el <;> simp [sourcesTabTrace, hq, h]

/-- C8: in a run of `add_text_source` that reaches the content-entry step
(navigation succeeded on a notebook URL and the Add-sources button, the
Copied-text chip and the textarea all resolved), content strictly longer
than 500 characters is entered through the bulk `textarea.fill` path and
the per-character `StealthUtils.human_type` path is never invoked, while
content of at most 500 characters goes through the per-character typing
path and the bulk path is never invoked — in every later branch of the run
(Insert found or not, error banner or not). -/
theorem add_text_source_entry_threshold (cfg : SourceSelectors) (page : Page)
    (content : String)
    (h0 : pyBlank content = false)
    (h1 : strStarts "https://notebooklm.google.com/" page.url = true)
    (h2 : strIn "/notebook/" page.url = true)
    (hadd : (find_element_with_selectors page cfg.addSource 5000).1.isSome = true)
    (hchip : (find_element_with_selectors page cfg.pasteChip 3000).1.isSome = true)
    (hta : (find_element_with_selectors page cfg.textarea 3000).1.isSome = true) :
    (500 < content.length →
        TextEv.fillContent ∈ (add_text_source cfg page content).1 ∧
        TextEv.humanTypeCall ∉ (add_text_source cfg page content).1) ∧
    (content.length ≤ 500 →
        TextEv.humanTypeCall ∈ (add_text_source cfg page content).1 ∧
        TextEv.fillContent ∉ (add_text_source cfg page content).1) := by
  obtain ⟨eA, sA, hA⟩ : ∃ e s,
      find_element_with_selectors page cfg.addSource 5000 = (some e, s) := by
    rcases hr : find_element_with_selectors page cfg.addSource 5000 with ⟨a, b⟩
    rw [hr] at hadd
    cases a with
    | none => simp at hadd
    | some e => exact ⟨e, b, rfl⟩
  obtain ⟨eC, sC, hC⟩ : ∃ e s,
      find_element_with_selectors page cfg.pasteChip 3000 = (some e, s) := by
    rcases hr : find_element_with_selectors page cfg.pasteChip 3000 with ⟨a, b⟩
    rw [hr] at hchip
    cases a with
    | none => simp at hchip
    | some e => exact ⟨e, b, rfl⟩
  obtain ⟨eT, sT, hT⟩ : ∃ e s,
      find_element_with_selectors page cfg.textarea 3000 = (some e, s) := by
    rcases hr : find_element_with_selectors page cfg.textarea 3000 with ⟨a, b⟩
    rw [hr] at hta
    cases a with
    | none => simp at hta
    | some e => exact ⟨e, b, rfl⟩
  obtain ⟨hnf, hnh⟩ := sourcesTabTrace_eventless page
  rcases hI : find_element_with_selectors page cfg.insertBtn 3000 with ⟨iOpt, sI⟩
  constructor
  · intro hlen
    rcases iOpt with _ | eI
    · simp [add_text_source, h0, h1, h2, hA, hC, hT, hI, hlen, hnf, hnh]
    · rcases hE : page.query "[class*=\"error\"]" with _ | eE
      · simp [add_text_source, h0, h1, h2, hA, hC, hT, hI, hE, hlen, hnf, hnh]
      · by_cases hV : page.visible eE <;>
          simp [add_text_source, h0, h1, h2, hA, hC, hT, hI, hE, hV, hlen, hnf, hnh]
  · intro hlen
    have hlen2 : ¬ (500 < content.length) := by omega
    rcases iOpt with _ | eI
    · simp [add_text_source, h0, h1, h2, hA, hC, hT, hI, hlen2, hnf, hnh]
    · rcases hE : page.query "[class*=\"error\"]" with _ | eE
      · simp [add_text_source, h0, h1, h2, hA, hC, hT, hI, hE, hlen2, hnf, hnh]
      · by_cases hV : page.visible eE <;>
          simp [add_text_source, h0, h1, h2, hA, hC, hT, hI, hE, hV, hlen2, hnf, hnh]

/-- Selector configuration for the C8 witness: every list is the single
selector `"sel"`. -/
def cfgW : SourceSelectors := ⟨["sel"], ["sel"], ["sel"], ["sel"]⟩

/-- A notebook page on which the selector `"sel"` always resolves. -/
def pageNb : Page where
  url := "https://notebooklm.google.com/notebook/abc"
  wait := fun s _ => if s = "sel" then some 2 else none
  waitTime := fun _ t => t
  query := fun _ => none
  visible := fun _ => true

/-- A 501-character content string (the spec's example length). -/
def longContent : String := String.mk (List.replicate 501 'a')

/-- Witness for C8 at concrete inputs: on `pageNb`, 501-character content
takes the bulk-fill path and never the typing path; 5-character content
takes the typing path and never the bulk path. -/
theorem add_text_source_entry_threshold_witness :
    (TextEv.fillContent ∈ (add_text_source cfgW pageNb longContent).1 ∧
      TextEv.humanTypeCall ∉ (add_text_source cfgW pageNb longContent).1) ∧
    (TextEv.humanTypeCall ∈ (add_text_source cfgW pageNb "hello").1 ∧
      TextEv.fillContent ∉ (add_text_source cfgW pageNb "hello").1) := by
  constructor
  · exact (add_text_source_entry_threshold cfgW pageNb longContent
      (by decide) (by decide) (by decide) (by decide) (by decide) (by decide)).1
      (by decide)
  · exact (add_text_source_entry_threshold cfgW pageNb "hello"
      (by decide) (by decide) (by decide) (by decide) (by decide) (by decide)).2
      (by decide)

/-! ## C9 — unconditional resource release -/

/-- C9: on every run of the shared operation skeleton — successful body,
handled failure, unexpected exception, and even a failing driver start or
context launch — whenever the driver was started, `playwright.stop()` is
performed and is the very last event before the function returns, and
whenever the context was launched, `context.close()` is performed; release
is never skipped because the operation failed. -/
theorem run_with_cleanup_always_releases (env : OpEnv) :
    (ResEv.pwStart ∈ (run_with_cleanup env).1 →
        ResEv.pwStop ∈ (run_with_cleanup env).1 ∧
        (run_with_cleanup env).1.getLast? = some ResEv.pwStop) ∧
    (ResEv.ctxLaunch ∈ (run_with_cleanup env).1 →
        ResEv.ctxClose ∈ (run_with_cleanup env).1) := by
  rcases env with ⟨s, l, body⟩
  cases s <;> cases l <;> cases body <;> simp [run_with_cleanup]

/-- Witness for C9 at a concrete input: the run whose body raises an
unexpected exception still closes the context and stops the driver. -/
theorem run_with_cleanup_always_releases_witness :
    (ResEv.pwStop ∈ (run_with_cleanup ⟨true, true, .raised⟩).1 ∧
      (run_with_cleanup ⟨true, true, .raised⟩).1.getLast? = some ResEv.pwStop) ∧
    ResEv.ctxClose ∈ (run_with_cleanup ⟨true, true, .raised⟩).1 := by
  have h := run_with_cleanup_always_releases ⟨true, true, .raised⟩
  exact ⟨h.1 (by decide), h.2 (by decide)⟩

/-! ## C10 — `human_type` on an unresolvable selector is a silent no-op -/

/-- C10: when the selector resolves to no element — `query_selector` finds
nothing and the bounded 2-second wait times out — `human_type` performs
only the console warning: it clicks nothing, types no character, and
returns normally (the embedding is a total function into a trace; the
Python function returns `None` on this path exactly as on the successful
path, so no failure is reported to the caller). -/
theorem human_type_missing_element_noop (page : Page) (selector text : String)
    (hq : page.query selector = none) (hw : page.wait selector 2000 = none) :
    human_type page selector text = [TypeEv.warn] ∧
    (∀ c, TypeEv.typeChar c ∉ human_type page selector text) ∧
    TypeEv.clickFocus ∉ human_type page selector text := by
  have h : human_type page selector text = [TypeEv.warn] := by
    simp [human_type, hq, hw]
  refine ⟨h, fun c => ?_, ?_⟩ <;> simp [h]

/-- Witness for C10 at a concrete input: typing `"hi"` into `"textarea"`
on `pageFail`, where nothing resolves. -/
theorem human_type_missing_element_noop_witness :
    human_type pageFail "textarea" "hi" = [TypeEv.warn] ∧
    (∀ c, TypeEv.typeChar c ∉ human_type pageFail "textarea" "hi") ∧
    TypeEv.clickFocus ∉ human_type pageFail "textarea" "hi" := by
  exact human_type_missing_element_noop pageFail "textarea" "hi" rfl rfl

end NotebookLM
